import Mathlib

/-!
Shallow embedding of the zkLocus proof-composition core.

Circuit code operates on o1js `Int64` values (sign plus 64-bit magnitude) and
`Field` elements.  Inside a satisfied circuit, `Int64` arithmetic is exact
(range violations fail the constraint system rather than wrap), so `Int64` is
modelled as the unbounded `Int`.  `Field` elements only ever appear here as
commitment values compared for equality, so they are likewise modelled as
`Int`; the Poseidon hash is an external primitive and is passed in as an
explicit `List Int → Int` parameter.
-/

/-- o1js `Int64.div`: the quotient of the two magnitudes carrying the product
of the two signs, i.e. division truncated toward zero. -/
def int64Div (a b : Int) : Int :=
(if (a < 0) = (b < 0) then 1 else -1) * ((a.natAbs / b.natAbs : ℕ) : Int)

/-- `GeographicalPoint` of the circuit source: latitude, longitude and the
decimal scale factor, all stored as `Int64`. -/
structure GeographicalPoint where
  latitude : Int
  longitude : Int
  factor : Int
deriving Repr, DecidableEq

/-- `GeographicalPoint.hash`: Poseidon over latitude, longitude, factor. -/
def GeographicalPoint.hash (hashL : List Int → Int) (p : GeographicalPoint) : Int :=
hashL [p.latitude, p.longitude, p.factor]

/-- `GeographicalPoint.assertIsValid` as a boolean: the conjunction of the
three range assertions in the source.  Note the source divides only the
latitude by the factor; the longitude magnitude is compared against 180
unscaled. -/
def GeographicalPoint.assertIsValid (p : GeographicalPoint) : Bool :=
decide ((int64Div p.latitude p.factor).natAbs ≤ 90)
  && decide (p.longitude.natAbs ≤ 180)
  && decide (p.factor.natAbs ≤ 10 ^ 7)

/-- `NoncedGeographicalPoint` of the circuit source. -/
structure NoncedGeographicalPoint where
  point : GeographicalPoint
  nonce : Int
deriving Repr, DecidableEq

/-- `NoncedGeographicalPoint.hash`: Poseidon over the point hash and nonce. -/
def NoncedGeographicalPoint.hash (hashL : List Int → Int)
    (p : NoncedGeographicalPoint) : Int :=
hashL [p.point.hash hashL, p.nonce]

/-- `NoncedGeographicalPoint.assertIsValid` delegates to the inner point. -/
def NoncedGeographicalPoint.assertIsValid (p : NoncedGeographicalPoint) : Bool :=
p.point.assertIsValid

/-- `ThreePointPolygon` of the circuit source. -/
structure ThreePointPolygon where
  vertice1 : GeographicalPoint
  vertice2 : GeographicalPoint
  vertice3 : GeographicalPoint
deriving Repr, DecidableEq

/-- `ThreePointPolygon.hash`: Poseidon over the three vertex hashes. -/
def ThreePointPolygon.hash (hashL : List Int → Int) (poly : ThreePointPolygon) : Int :=
hashL [poly.vertice1.hash hashL, poly.vertice2.hash hashL, poly.vertice3.hash hashL]

/-- The validity condition exactly as claim C4 words it: both coordinates are
range-checked after scaling down by the factor `10 ^ f`, and `f ≤ 7`.  This is
a spec-side definition, written for comparison against the source-derived
`GeographicalPoint.assertIsValid`; the scaled bound `abs coord / 10 ^ f ≤ B`
is expressed exactly over the rationals as `natAbs coord ≤ B * 10 ^ f`. -/
def claimCoordinateValid (lat lon : Int) (f : ℕ) : Bool :=
decide (lat.natAbs ≤ 90 * 10 ^ f) && decide (lon.natAbs ≤ 180 * 10 ^ f)
  && decide (f ≤ 7)

/-- The magnitude of an o1js `Int64` quotient is the quotient of the
magnitudes. -/
theorem int64Div_natAbs (a b : Int) :
    (int64Div a b).natAbs = a.natAbs / b.natAbs := by
  unfold int64Div
  split_ifs <;>
    simp only [one_mul, neg_one_mul, Int.natAbs_neg, Int.natAbs_ofNat]

/-- C4 counterexample: the claim mischaracterizes `assertIsValid` in both
directions.  The point with latitude 0, longitude 500 and factor 10 (so
`f = 1`) satisfies the condition of the claim (`500 / 10 = 50 ≤ 180`) yet the
source rejects it, because the source compares the raw longitude magnitude
against 180 without scaling.  Conversely latitude 905 at factor 10 violates
the bound of the claim (`905 / 10 = 90.5 > 90`) yet the source accepts it, because
the in-circuit division truncates toward zero. -/
theorem assertIsValid_claim_counterexample :
    claimCoordinateValid 0 500 1 = true
    ∧ GeographicalPoint.assertIsValid ⟨0, 500, 10⟩ = false
    ∧ claimCoordinateValid 905 0 1 = false
    ∧ GeographicalPoint.assertIsValid ⟨905, 0, 10⟩ = true := by
  refine ⟨by decide, by decide, by decide, by decide⟩

/-- C4 (amended): for a factor `10 ^ f` with `f ≤ 7`, `assertIsValid` succeeds
exactly when the truncated quotient of the latitude magnitude by `10 ^ f` is
at most 90 and the raw longitude magnitude is at most 180; the longitude check
ignores the factor. -/
theorem assertIsValid_characterization (lat lon : Int) (f : ℕ) (hf : f ≤ 7) :
    GeographicalPoint.assertIsValid ⟨lat, lon, (10 : Int) ^ f⟩ = true ↔
      (lat.natAbs / 10 ^ f ≤ 90 ∧ lon.natAbs ≤ 180) := by
  unfold GeographicalPoint.assertIsValid
  have hfac : ((10 : Int) ^ f).natAbs = 10 ^ f := by
    simp [Int.natAbs_pow]
  have hle : (10 : ℕ) ^ f ≤ 10000000 := by
    simpa using Nat.pow_le_pow_right (by norm_num : 1 ≤ 10) hf
  simp [int64Div_natAbs, hfac, hle]

/-- Witness instantiating `assertIsValid_characterization` at latitude 905,
longitude 180, factor 10. -/
theorem assertIsValid_characterization_witness :
    (1 ≤ 7)
    ∧ (GeographicalPoint.assertIsValid ⟨905, 180, (10 : Int) ^ 1⟩ = true ↔
        ((905 : Int).natAbs / 10 ^ 1 ≤ 90 ∧ (180 : Int).natAbs ≤ 180)) :=
  ⟨by decide, assertIsValid_characterization 905 180 1 (by decide)⟩

/-- Modelled from the spec: the comparison helper `provableIsInt64XGreaterThanY`
of `math/Provers.js` is imported by the circuit source but its file is not part
of the sources at hand; per the comparison semantics of spec section 4.2 it is the
signed strict greater-than test returned as a circuit boolean. -/
def provableIsInt64XGreaterThanY (x y : Int) : Bool :=
decide (y < x)

/-- Modelled from the spec: signed less-than-or-equal test of
`math/Provers.js`. -/
def provableIsInt64XLessThanOrEqualY (x y : Int) : Bool :=
decide (x ≤ y)

/-- Modelled from the spec: signed strict less-than test of
`math/Provers.js`. -/
def provableIsInt64XLessThanY (x y : Int) : Bool :=
decide (x < y)

/-- Modelled from the spec: zero test of `math/Provers.js`. -/
def provableIsInt64XEqualToZero (x : Int) : Bool :=
decide (x = 0)

/-- `isPointOnEdgeProvable` of the circuit source: the point lies within the
bounding box of the edge from `vertice1` to `vertice2` and satisfies the exact
cross-multiplied collinearity equation. -/
def isPointOnEdgeProvable (point : NoncedGeographicalPoint)
    (vertice1 vertice2 : GeographicalPoint) : Bool :=
  let x := point.point.latitude
  let y := point.point.longitude
  let x1 := vertice1.latitude
  let y1 := vertice1.longitude
  let x2 := vertice2.latitude
  let y2 := vertice2.longitude
  let isX1LargerThanX2 := provableIsInt64XGreaterThanY x1 x2
  let maximumX := if isX1LargerThanX2 then x1 else x2
  let minimumX := if isX1LargerThanX2 then x2 else x1
  let isY1LargerThanY2 := provableIsInt64XGreaterThanY y1 y2
  let maximumY := if isY1LargerThanY2 then y1 else y2
  let minimumY := if isY1LargerThanY2 then y2 else y1
  let withinXBounds := provableIsInt64XLessThanOrEqualY x maximumX
    && provableIsInt64XLessThanOrEqualY minimumX x
  let withinYBounds := provableIsInt64XLessThanOrEqualY y maximumY
    && provableIsInt64XLessThanOrEqualY minimumY y
  let firstProduct := (x2 - x1) * (y - y1)
  let secondProduct := (x - x1) * (y2 - y1)
  let onLine := decide (firstProduct = secondProduct)
  withinXBounds && withinYBounds && onLine

/-- The effective denominator of one ray-casting iteration: the source
substitutes 1 whenever the raw denominator `yj - yi` is detected to be zero,
so the division-by-zero branch of `Int64.div` is never taken. -/
def rayCastDenominator (yi yj : Int) : Int :=
  let denominator := yj - yi
  let isHorizontalEdge := provableIsInt64XEqualToZero denominator
  if isHorizontalEdge then 1 else denominator

/-- One iteration of the ray-casting loop of `isPointIn3PointPolygon`, acting
on the `inside` accumulator.  `(xi, yi)` is `vertices[i]` and `(xj, yj)` is
`vertices[j]`. -/
def rayCastStep (x y xi yi xj yj : Int) (inside : Bool) : Bool :=
  let condition1 := provableIsInt64XGreaterThanY yi y
  let condition2 := provableIsInt64XGreaterThanY yj y
  let jointCondition1 := !(condition1 == condition2)
  let numerator := (xj - xi) * (y - yi)
  let isHorizontalEdge := provableIsInt64XEqualToZero (yj - yi)
  let denominator := rayCastDenominator yi yj
  let result := int64Div numerator denominator + xi
  let jointCondition2 := provableIsInt64XLessThanY x result
  let jointCondition2 := if isHorizontalEdge then false else jointCondition2
  let isIntersect := jointCondition1 && jointCondition2
  if isIntersect then !inside else inside

/-- `isPointIn3PointPolygon` of the circuit source: the three edge-membership
tests combined with the three unrolled ray-casting iterations, whose index
pairs `(i, j)` run `(0, 2), (1, 0), (2, 1)` over `[vertice1, vertice2,
vertice3]`; a point located on any edge is forced to INSIDE at the end. -/
def isPointIn3PointPolygon (point : NoncedGeographicalPoint)
    (polygon : ThreePointPolygon) : Bool :=
  let x := point.point.latitude
  let y := point.point.longitude
  let isPointOnEdge1 := isPointOnEdgeProvable point polygon.vertice1 polygon.vertice2
  let isPointOnEdge2 := isPointOnEdgeProvable point polygon.vertice2 polygon.vertice3
  let isPointOnEdge3 := isPointOnEdgeProvable point polygon.vertice3 polygon.vertice1
  let isPointLocatedOnEdge := isPointOnEdge1 || isPointOnEdge2 || isPointOnEdge3
  let inside := false
  let inside := rayCastStep x y polygon.vertice1.latitude polygon.vertice1.longitude
    polygon.vertice3.latitude polygon.vertice3.longitude inside
  let inside := rayCastStep x y polygon.vertice2.latitude polygon.vertice2.longitude
    polygon.vertice1.latitude polygon.vertice1.longitude inside
  let inside := rayCastStep x y polygon.vertice3.latitude polygon.vertice3.longitude
    polygon.vertice2.latitude polygon.vertice2.longitude inside
  if isPointLocatedOnEdge then true else inside

/-- A point whose coordinates coincide with the first endpoint of an edge
passes the membership test of that edge. -/
theorem isPointOnEdge_endpoint_left (pt w : GeographicalPoint) (nonce : Int) :
    isPointOnEdgeProvable ⟨pt, nonce⟩ pt w = true := by
  simp only [isPointOnEdgeProvable, provableIsInt64XGreaterThanY,
    provableIsInt64XLessThanOrEqualY, Bool.and_eq_true, decide_eq_true_eq]
  refine ⟨⟨⟨?_, ?_⟩, ?_, ?_⟩, ?_⟩
  · split_ifs <;> omega
  · split_ifs <;> omega
  · split_ifs <;> omega
  · split_ifs <;> omega
  · ring

/-- C6: a horizontal edge (`yj - yi = 0`) never toggles the ray-casting
accumulator, and the denominator actually used for the in-circuit division is
never zero — it is substituted by 1 exactly on horizontal edges. -/
theorem horizontal_edge_never_flips :
    (∀ x y xi yi xj yj : Int, yj - yi = 0 →
      ∀ inside : Bool, rayCastStep x y xi yi xj yj inside = inside)
    ∧ (∀ yi yj : Int, rayCastDenominator yi yj ≠ 0)
    ∧ (∀ yi yj : Int, yj - yi = 0 → rayCastDenominator yi yj = 1) := by
  refine ⟨?_, ?_, ?_⟩
  · intro x y xi yi xj yj h inside
    simp [rayCastStep, provableIsInt64XEqualToZero, h]
  · intro yi yj
    simp only [rayCastDenominator, provableIsInt64XEqualToZero]
    split_ifs with h
    · omega
    · simpa using h
  · intro yi yj h
    simp [rayCastDenominator, provableIsInt64XEqualToZero, h]

/-- Witness instantiating `horizontal_edge_never_flips` on the horizontal edge
from `(0, 5)` to `(9, 5)` with query point `(1, 5)`. -/
theorem horizontal_edge_never_flips_witness :
    ((5 : Int) - 5 = 0)
    ∧ rayCastStep 1 5 0 5 9 5 false = false
    ∧ rayCastDenominator 5 5 = 1 :=
  ⟨rfl, horizontal_edge_never_flips.1 1 5 0 5 9 5 rfl false,
    horizontal_edge_never_flips.2.2 5 5 rfl⟩

/-- C5: every point passing the edge-membership test for some edge of the
triangle is classified INSIDE by `isPointIn3PointPolygon`, whatever the
ray-casting accumulator computed; in particular each of the three triangle
vertices, taken as the query point under any nonce, is classified INSIDE. -/
theorem edge_and_vertex_points_classified_inside :
    (∀ (p : NoncedGeographicalPoint) (poly : ThreePointPolygon),
      (isPointOnEdgeProvable p poly.vertice1 poly.vertice2 = true
        ∨ isPointOnEdgeProvable p poly.vertice2 poly.vertice3 = true
        ∨ isPointOnEdgeProvable p poly.vertice3 poly.vertice1 = true) →
      isPointIn3PointPolygon p poly = true)
    ∧ (∀ (poly : ThreePointPolygon) (nonce : Int),
      isPointIn3PointPolygon ⟨poly.vertice1, nonce⟩ poly = true
      ∧ isPointIn3PointPolygon ⟨poly.vertice2, nonce⟩ poly = true
      ∧ isPointIn3PointPolygon ⟨poly.vertice3, nonce⟩ poly = true) := by
  have main : ∀ (p : NoncedGeographicalPoint) (poly : ThreePointPolygon),
      (isPointOnEdgeProvable p poly.vertice1 poly.vertice2 = true
        ∨ isPointOnEdgeProvable p poly.vertice2 poly.vertice3 = true
        ∨ isPointOnEdgeProvable p poly.vertice3 poly.vertice1 = true) →
      isPointIn3PointPolygon p poly = true := by
    intro p poly h
    simp only [isPointIn3PointPolygon]
    rcases h with h | h | h <;> simp [h]
  refine ⟨main, ?_⟩
  intro poly nonce
  exact ⟨main _ poly (Or.inl (isPointOnEdge_endpoint_left poly.vertice1 poly.vertice2 nonce)),
    main _ poly (Or.inr (Or.inl (isPointOnEdge_endpoint_left poly.vertice2 poly.vertice3 nonce))),
    main _ poly (Or.inr (Or.inr (isPointOnEdge_endpoint_left poly.vertice3 poly.vertice1 nonce)))⟩

/-- Witness instantiating `edge_and_vertex_points_classified_inside` on the
scenario-3 triangle of the spec `(0,0), (10,0), (0,10)` with the query point
`(0, 5)` lying on the edge from the third vertex back to the first. -/
theorem edge_and_vertex_points_classified_inside_witness :
    isPointOnEdgeProvable ⟨⟨0, 5, 1⟩, 0⟩ ⟨0, 10, 1⟩ ⟨0, 0, 1⟩ = true
    ∧ isPointIn3PointPolygon ⟨⟨0, 5, 1⟩, 0⟩ ⟨⟨0, 0, 1⟩, ⟨10, 0, 1⟩, ⟨0, 10, 1⟩⟩ = true :=
  ⟨by decide,
    edge_and_vertex_points_classified_inside.1 ⟨⟨0, 5, 1⟩, 0⟩
      ⟨⟨0, 0, 1⟩, ⟨10, 0, 1⟩, ⟨0, 10, 1⟩⟩ (Or.inr (Or.inr (by decide)))⟩

/-- `CoordinateProofState`, the public output of the point-in-polygon
circuit. -/
structure CoordinateProofState where
  polygonCommitment : Int
  coordinatesCommitment : Int
  isInPolygon : Bool
deriving Repr, DecidableEq

/-- `CoordinatePolygonInclusionExclusionProof`, the public output of the
in-or-out rollup circuit. -/
structure CoordinatePolygonInclusionExclusionProof where
  insidePolygonCommitment : Int
  outsidePolygonCommitment : Int
  coordinatesCommitment : Int
deriving Repr, DecidableEq

/-- Public output of the argument-validation circuit. -/
structure ProoveCoordinatesIn3dPolygonArgumentsValues where
  point : GeographicalPoint
  polygon : ThreePointPolygon
deriving Repr, DecidableEq

/-- `verifyProoveCoordinatesIn3dPolygonArguments` of the circuit source:
asserts the nonced point and all three polygon vertices valid and the four
factors equal, returning `none` when any in-circuit assertion fails. -/
def verifyProoveCoordinatesIn3dPolygonArguments (point : NoncedGeographicalPoint)
    (polygon : ThreePointPolygon) :
    Option ProoveCoordinatesIn3dPolygonArgumentsValues :=
  if point.assertIsValid
      && polygon.vertice1.assertIsValid
      && polygon.vertice2.assertIsValid
      && polygon.vertice3.assertIsValid
      && decide (point.point.factor = polygon.vertice1.factor)
      && decide (point.point.factor = polygon.vertice2.factor)
      && decide (point.point.factor = polygon.vertice3.factor)
  then some ⟨point.point, polygon⟩
  else none

/-- `proveCoordinatesIn3PointPolygon` of the circuit source.  The source body
contains no assertion at all — only a TODO comment noting that validating the
inputs and their factors is crucial — so the embedding is a total function:
every input, malformed or not, yields a proof state. -/
def proveCoordinatesIn3PointPolygon (hashL : List Int → Int)
    (point : NoncedGeographicalPoint) (polygon : ThreePointPolygon) :
    CoordinateProofState :=
  { polygonCommitment := polygon.hash hashL
    coordinatesCommitment := point.hash hashL
    isInPolygon := isPointIn3PointPolygon point polygon }

/-- `AND` of the circuit source.  It asserts equal coordinate commitments and
distinct polygon commitments; the polarity of the second proof is never
asserted — the output bit is `Provable.if(proof1.isInPolygon, true, false)`,
i.e. the bit of the first proof. -/
def AND (hashL : List Int → Int) (proof1 proof2 : CoordinateProofState) :
    Option CoordinateProofState :=
  if proof1.coordinatesCommitment = proof2.coordinatesCommitment then
    if proof1.polygonCommitment = proof2.polygonCommitment then none
    else
      let expectedSecondProofIsInPolygon := if proof1.isInPolygon then true else false
      some { polygonCommitment :=
               hashL [proof1.polygonCommitment, proof2.polygonCommitment]
             coordinatesCommitment := proof1.coordinatesCommitment
             isInPolygon := expectedSecondProofIsInPolygon }
  else none

/-- `OR` of the circuit source: same commitment assertions as `AND`, output
bit the disjunction of the two input bits. -/
def OR (hashL : List Int → Int) (proof1 proof2 : CoordinateProofState) :
    Option CoordinateProofState :=
  if proof1.coordinatesCommitment = proof2.coordinatesCommitment then
    if proof1.polygonCommitment = proof2.polygonCommitment then none
    else
      let isInPolygon :=
        if proof1.isInPolygon || proof2.isInPolygon then true else false
      some { polygonCommitment :=
               hashL [proof1.polygonCommitment, proof2.polygonCommitment]
             coordinatesCommitment := proof1.coordinatesCommitment
             isInPolygon := isInPolygon }
  else none

/-- `fromCoordinatesInPolygonProof` of the circuit source: lift a
point-in-polygon proof into the two-sided accumulator. -/
def fromCoordinatesInPolygonProof (proof : CoordinateProofState) :
    CoordinatePolygonInclusionExclusionProof :=
  { insidePolygonCommitment :=
      if proof.isInPolygon then proof.polygonCommitment else 0
    outsidePolygonCommitment :=
      if proof.isInPolygon then 0 else proof.polygonCommitment
    coordinatesCommitment := proof.coordinatesCommitment }

/-- `combine` of the circuit source, translated assignment by assignment.
The last two assignments reproduce the source exactly: the second `Provable.if`
of the outside chain tests `isInsideCommitmentPresentInProof2` (not the
outside flag), and the final assignment writes `newOutsideCommitment` into
`newInsideCommitment` again instead of closing the outside chain. -/
def combine (hashL : List Int → Int)
    (proof1 proof2 : CoordinatePolygonInclusionExclusionProof) :
    Option CoordinatePolygonInclusionExclusionProof :=
  if proof1.coordinatesCommitment = proof2.coordinatesCommitment then
    let isInsidePolygonCommitmentEqual :=
      decide (proof1.insidePolygonCommitment = proof2.insidePolygonCommitment)
    let isOutsidePolygonCommitmentEqual :=
      decide (proof1.outsidePolygonCommitment = proof2.outsidePolygonCommitment)
    if isInsidePolygonCommitmentEqual && isOutsidePolygonCommitmentEqual then none
    else
      let isInsideCommitmentPresentInProof1 :=
        !decide (proof1.insidePolygonCommitment = 0)
      let isInsideCommitmentPresentInProof2 :=
        !decide (proof2.insidePolygonCommitment = 0)
      let isOutsideCommitmentPresentInProof1 :=
        !decide (proof1.outsidePolygonCommitment = 0)
      let isOutsideCommitmentPresentInProof2 :=
        !decide (proof2.outsidePolygonCommitment = 0)
      let newInsideCommitmentBothPresent :=
        hashL [proof1.insidePolygonCommitment, proof2.insidePolygonCommitment]
      let newInsideCommitment :=
        if isInsideCommitmentPresentInProof1 && !isInsideCommitmentPresentInProof2
        then proof1.insidePolygonCommitment else newInsideCommitmentBothPresent
      let newInsideCommitment :=
        if !isInsideCommitmentPresentInProof1 && isInsideCommitmentPresentInProof2
        then proof2.insidePolygonCommitment else newInsideCommitment
      let newInsideCommitment :=
        if !isInsideCommitmentPresentInProof1 && !isInsideCommitmentPresentInProof2
        then 0 else newInsideCommitment
      let newOutsideCommitmentBothPresent :=
        hashL [proof1.outsidePolygonCommitment, proof2.outsidePolygonCommitment]
      let newOutsideCommitment :=
        if isOutsideCommitmentPresentInProof1 && !isOutsideCommitmentPresentInProof2
        then proof1.outsidePolygonCommitment else newOutsideCommitmentBothPresent
      let newOutsideCommitment :=
        if !isOutsideCommitmentPresentInProof1 && isInsideCommitmentPresentInProof2
        then proof2.outsidePolygonCommitment else newOutsideCommitment
      let newInsideCommitment :=
        if !isInsideCommitmentPresentInProof1 && !isInsideCommitmentPresentInProof2
        then 0 else newOutsideCommitment
      some { insidePolygonCommitment := newInsideCommitment
             outsidePolygonCommitment := newOutsideCommitment
             coordinatesCommitment := proof1.coordinatesCommitment }
  else none

/-- A concrete stand-in hash used only to evaluate the circuits at explicit
inputs.  Poseidon itself is an external primitive of the SNARK library; every
theorem whose content depends on the hash quantifies over it instead. -/
def sampleHash (l : List Int) : Int :=
l.foldl (fun a x => 1000003 * a + 2 * x + 1) 7

/-- C1 (evaluation at the failing input): two proofs over the same coordinate
commitment and distinct polygon commitments but opposite polarity are accepted
by `AND`, which returns the bit of the first proof; no polarity-mismatch failure
occurs because the source never asserts the bit of the second proof. -/
theorem AND_accepts_polarity_mismatch :
    (⟨1, 5, true⟩ : CoordinateProofState).isInPolygon
      ≠ (⟨2, 5, false⟩ : CoordinateProofState).isInPolygon
    ∧ AND sampleHash ⟨1, 5, true⟩ ⟨2, 5, false⟩ =
        some ⟨sampleHash [1, 2], 5, true⟩ :=
  ⟨by decide, by decide⟩

/-- A point with longitude 1000 (far out of range) under factor 10. -/
def malformedPoint : NoncedGeographicalPoint := ⟨⟨0, 1000, 10⟩, 0⟩

/-- A polygon whose vertices carry factor 100, mismatching `malformedPoint`. -/
def malformedPolygon : ThreePointPolygon :=
⟨⟨0, 0, 100⟩, ⟨10, 0, 100⟩, ⟨0, 10, 100⟩⟩

/-- C2 (evaluation at the failing input): the input is rejected by the
argument-validation circuit (invalid coordinate and mismatched factors), yet
`proveCoordinatesIn3PointPolygon` still emits a complete proof state binding
the commitments of that input — the proving circuit itself contains no validity or
factor assertion. -/
theorem proveCoordinatesIn3PointPolygon_skips_validation :
    malformedPoint.assertIsValid = false
    ∧ malformedPoint.point.factor ≠ malformedPolygon.vertice1.factor
    ∧ verifyProoveCoordinatesIn3dPolygonArguments malformedPoint malformedPolygon = none
    ∧ proveCoordinatesIn3PointPolygon sampleHash malformedPoint malformedPolygon =
        { polygonCommitment := malformedPolygon.hash sampleHash
          coordinatesCommitment := malformedPoint.hash sampleHash
          isInPolygon := isPointIn3PointPolygon malformedPoint malformedPolygon } :=
  ⟨by decide, by decide, by decide, rfl⟩

/-- An accumulator holding one inside-polygon commitment and nothing on the
outside. -/
def accumulatorInsideOnly : CoordinatePolygonInclusionExclusionProof := ⟨5, 0, 9⟩

/-- An accumulator holding one outside-polygon commitment and nothing on the
inside. -/
def accumulatorOutsideOnly : CoordinatePolygonInclusionExclusionProof := ⟨0, 7, 9⟩

/-- C3 (evaluation at the failing input, plus the general corruption law):
whenever `combine` accepts a pair in which at least one input carries an
inside commitment, the stray final assignment of the source makes the output
inside commitment equal the output outside commitment.  Concretely, combining
the accumulators `(inside 5, outside 0)` and `(inside 0, outside 7)` yields
`Poseidon(0, 7)` on both sides, instead of inside 5 and outside 7 as the claim
requires. -/
theorem combine_corrupts_side_commitments :
    (∀ (hashL : List Int → Int)
      (p1 p2 r : CoordinatePolygonInclusionExclusionProof),
      combine hashL p1 p2 = some r →
      (p1.insidePolygonCommitment ≠ 0 ∨ p2.insidePolygonCommitment ≠ 0) →
      r.insidePolygonCommitment = r.outsidePolygonCommitment)
    ∧ combine sampleHash accumulatorInsideOnly accumulatorOutsideOnly =
        some ⟨sampleHash [0, 7], sampleHash [0, 7], 9⟩
    ∧ sampleHash [0, 7] ≠ 5 ∧ sampleHash [0, 7] ≠ 7 := by
  refine ⟨?_, by decide, by decide, by decide⟩
  intro hashL p1 p2 r hr hne
  simp only [combine] at hr
  split at hr
  · split at hr
    · exact absurd hr (by simp)
    · simp only [Option.some.injEq] at hr
      subst hr
      rcases hne with h | h <;> simp [h]
  · exact absurd hr (by simp)

/-- Witness instantiating the general law of `combine_corrupts_side_commitments`
on the two concrete accumulators. -/
theorem combine_corrupts_side_commitments_witness :
    combine sampleHash accumulatorInsideOnly accumulatorOutsideOnly =
      some ⟨sampleHash [0, 7], sampleHash [0, 7], 9⟩
    ∧ (accumulatorInsideOnly.insidePolygonCommitment ≠ 0
        ∨ accumulatorOutsideOnly.insidePolygonCommitment ≠ 0)
    ∧ (⟨sampleHash [0, 7], sampleHash [0, 7], 9⟩ :
        CoordinatePolygonInclusionExclusionProof).insidePolygonCommitment =
      (⟨sampleHash [0, 7], sampleHash [0, 7], 9⟩ :
        CoordinatePolygonInclusionExclusionProof).outsidePolygonCommitment :=
  ⟨by decide, Or.inl (by decide),
    combine_corrupts_side_commitments.1 sampleHash accumulatorInsideOnly
      accumulatorOutsideOnly _ (by decide) (Or.inl (by decide))⟩

/-- C7: for every two proofs over the same coordinate commitment and distinct
polygon commitments, `OR` outputs the disjunction of the two inside bits and
the Poseidon hash of the two polygon commitments. -/
theorem OR_combiner_output (hashL : List Int → Int)
    (proof1 proof2 : CoordinateProofState)
    (hc : proof1.coordinatesCommitment = proof2.coordinatesCommitment)
    (hp : proof1.polygonCommitment ≠ proof2.polygonCommitment) :
    OR hashL proof1 proof2 =
      some { polygonCommitment :=
               hashL [proof1.polygonCommitment, proof2.polygonCommitment]
             coordinatesCommitment := proof1.coordinatesCommitment
             isInPolygon := proof1.isInPolygon || proof2.isInPolygon } := by
  simp only [OR, if_pos hc, if_neg hp]
  cases h1 : proof1.isInPolygon <;> cases h2 : proof2.isInPolygon <;> simp

/-- Witness instantiating `OR_combiner_output` on two concrete proofs of
opposite polarity. -/
theorem OR_combiner_output_witness :
    ((⟨1, 5, false⟩ : CoordinateProofState).coordinatesCommitment =
      (⟨2, 5, true⟩ : CoordinateProofState).coordinatesCommitment)
    ∧ ((⟨1, 5, false⟩ : CoordinateProofState).polygonCommitment ≠
        (⟨2, 5, true⟩ : CoordinateProofState).polygonCommitment)
    ∧ OR sampleHash ⟨1, 5, false⟩ ⟨2, 5, true⟩ =
        some ⟨sampleHash [1, 2], 5, false || true⟩ :=
  ⟨rfl, by decide,
    OR_combiner_output sampleHash ⟨1, 5, false⟩ ⟨2, 5, true⟩ rfl (by decide)⟩

/-- C9: every combining operation that succeeds — `AND`, `OR` and the rollup
`combine` — emits the coordinates commitment of the first input, which under the
asserted equality precondition also equals that of the second input, so the
coordinate identity is invariant along any chain of compositions. -/
theorem combiners_preserve_coordinatesCommitment (hashL : List Int → Int) :
    (∀ p1 p2 r : CoordinateProofState, AND hashL p1 p2 = some r →
      r.coordinatesCommitment = p1.coordinatesCommitment
      ∧ r.coordinatesCommitment = p2.coordinatesCommitment)
    ∧ (∀ p1 p2 r : CoordinateProofState, OR hashL p1 p2 = some r →
      r.coordinatesCommitment = p1.coordinatesCommitment
      ∧ r.coordinatesCommitment = p2.coordinatesCommitment)
    ∧ (∀ p1 p2 r : CoordinatePolygonInclusionExclusionProof,
      combine hashL p1 p2 = some r →
      r.coordinatesCommitment = p1.coordinatesCommitment
      ∧ r.coordinatesCommitment = p2.coordinatesCommitment) := by
  refine ⟨?_, ?_, ?_⟩
  · intro p1 p2 r hr
    simp only [AND] at hr
    split at hr
    · split at hr
      · exact absurd hr (by simp)
      · simp only [Option.some.injEq] at hr
        subst hr
        exact ⟨rfl, by assumption⟩
    · exact absurd hr (by simp)
  · intro p1 p2 r hr
    simp only [OR] at hr
    split at hr
    · split at hr
      · exact absurd hr (by simp)
      · simp only [Option.some.injEq] at hr
        subst hr
        exact ⟨rfl, by assumption⟩
    · exact absurd hr (by simp)
  · intro p1 p2 r hr
    simp only [combine] at hr
    split at hr
    · split at hr
      · exact absurd hr (by simp)
      · simp only [Option.some.injEq] at hr
        subst hr
        exact ⟨rfl, by assumption⟩
    · exact absurd hr (by simp)

/-- Witness instantiating `combiners_preserve_coordinatesCommitment` on the
`AND` combiner at two concrete proofs. -/
theorem combiners_preserve_coordinatesCommitment_witness :
    AND sampleHash ⟨3, 11, true⟩ ⟨4, 11, true⟩ =
      some ⟨sampleHash [3, 4], 11, true⟩
    ∧ (⟨sampleHash [3, 4], 11, true⟩ :
        CoordinateProofState).coordinatesCommitment =
      (⟨3, 11, true⟩ : CoordinateProofState).coordinatesCommitment :=
  ⟨by decide,
    ((combiners_preserve_coordinatesCommitment sampleHash).1
      ⟨3, 11, true⟩ ⟨4, 11, true⟩ _ (by decide)).1⟩

/-- A JavaScript field value: the driver source distinguishes the `undefined`
initial state from `null` (tested with strict equality) and from a held
object. -/
inductive JSVal (α : Type) where
  | undef
  | null
  | val (a : α)
deriving Repr, DecidableEq

/-- The `ZKGeoPointProviderCircuitProof` wrapper of the driver source; the
wrapped `GeoPointProviderCircuitProof` is an opaque proof handle. -/
structure ZKGeoPointProviderCircuitProof where
  proof : Int
deriving Repr, DecidableEq

/-- Modelled from the spec: `ExactGeoPointCircuit.fromGeoPointProvider` (the
circuit body is not among the sources at hand) consumes a provider proof and
emits the exact-reveal proof bound to that provider proof. -/
structure ExactGeoPointCircuitProof where
  fromProvider : Int
deriving Repr, DecidableEq

/-- Modelled from the spec: the reveal-circuit invocation, kept abstract as
the constructor of `ExactGeoPointCircuitProof`. -/
def ExactGeoPointCircuit.fromGeoPointProvider (rawProof : Int) :
    ExactGeoPointCircuitProof :=
⟨rawProof⟩

/-- The driver state relevant to `exactGeoPoint`: the
`integrationOracleProof` field, initialized to `undefined` and only ever set
by `authenticateFromIntegrationOracle`. -/
structure ProverState where
  integrationOracleProof : JSVal ZKGeoPointProviderCircuitProof
deriving Repr, DecidableEq

/-- `getIntegrationOracleProofOrError` of the driver source: throws exactly
when the field is still `undefined`, returning the stored field value
otherwise. -/
def getIntegrationOracleProofOrError (st : ProverState) :
    Except String (JSVal ZKGeoPointProviderCircuitProof) :=
  if st.integrationOracleProof = JSVal.undef then
    Except.error "Integration Oracle proof is not available. Please call authenticateFromIntegrationOracle first."
  else Except.ok st.integrationOracleProof

/-- `exactGeoPointForIntegrationOracle` of the driver source: reads the proof
handle out of the oracle wrapper and calls the reveal circuit on it.  Reading
`.proof` off a JavaScript `null` would raise a TypeError; that branch is
unreachable because the field is never assigned `null`. -/
def exactGeoPointForIntegrationOracle (st : ProverState) :
    Except String ExactGeoPointCircuitProof :=
  match getIntegrationOracleProofOrError st with
  | Except.error e => Except.error e
  | Except.ok (JSVal.val oracleProof) =>
      Except.ok (ExactGeoPointCircuit.fromGeoPointProvider oracleProof.proof)
  | Except.ok _ => Except.error "TypeError: cannot read properties of null"

/-- The state-updating effect of `authenticateFromIntegrationOracle`: on
success the freshly produced provider proof is stored in the
`integrationOracleProof` field. -/
def authenticateFromIntegrationOracle (st : ProverState)
    (p : ZKGeoPointProviderCircuitProof) : ProverState :=
  { st with integrationOracleProof := JSVal.val p }

/-- `exactGeoPoint` of the driver source, branch for branch: the two guards
compare the field against `null` with strict equality (so neither fires on
the `undefined` initial state), and the oracle path then re-checks the field
through `getIntegrationOracleProofOrError`. -/
def exactGeoPoint (st : ProverState) : Except String ExactGeoPointCircuitProof :=
  if st.integrationOracleProof = JSVal.null then
    Except.error "Currently, ExactGeoPoint can only be generated for a ZKGeoPoint that has been authenticated from exactly one source. This will be supported in the future."
  else if st.integrationOracleProof ≠ JSVal.null then
    exactGeoPointForIntegrationOracle st
  else
    Except.error "Unsupported or unknown authentication source(s) for exactGeoPoint."

/-- C8: on a driver whose oracle authentication has never completed (the
field still holds its `undefined` initial value), `exactGeoPoint` raises an
error and produces no proof — the error surfaces from
`getIntegrationOracleProofOrError`, since the outer `null` guards never fire
on `undefined`; once `authenticateFromIntegrationOracle` has stored a
provider proof, `exactGeoPoint` emits the exact-reveal proof built from that
provider proof. -/
theorem exactGeoPoint_authentication_gate :
    (∀ st : ProverState, st.integrationOracleProof = JSVal.undef →
      exactGeoPoint st = Except.error
        "Integration Oracle proof is not available. Please call authenticateFromIntegrationOracle first.")
    ∧ (∀ (st : ProverState) (p : ZKGeoPointProviderCircuitProof),
      exactGeoPoint (authenticateFromIntegrationOracle st p) =
        Except.ok (ExactGeoPointCircuit.fromGeoPointProvider p.proof)) := by
  constructor
  · intro st h
    simp [exactGeoPoint, exactGeoPointForIntegrationOracle,
      getIntegrationOracleProofOrError, h]
  · intro st p
    simp [exactGeoPoint, exactGeoPointForIntegrationOracle,
      getIntegrationOracleProofOrError, authenticateFromIntegrationOracle]

/-- Witness instantiating `exactGeoPoint_authentication_gate` on the initial
driver state. -/
theorem exactGeoPoint_authentication_gate_witness :
    (ProverState.mk JSVal.undef).integrationOracleProof = JSVal.undef
    ∧ exactGeoPoint (ProverState.mk JSVal.undef) = Except.error
        "Integration Oracle proof is not available. Please call authenticateFromIntegrationOracle first."
    ∧ exactGeoPoint (authenticateFromIntegrationOracle (ProverState.mk JSVal.undef) ⟨42⟩) =
        Except.ok (ExactGeoPointCircuit.fromGeoPointProvider 42) :=
  ⟨rfl, exactGeoPoint_authentication_gate.1 (ProverState.mk JSVal.undef) rfl,
    exactGeoPoint_authentication_gate.2 (ProverState.mk JSVal.undef) ⟨42⟩⟩

/-- Modelled from the spec: `ZKNumber` (its file is not among the sources at
hand) normalizes a decimal input number; per the interface section of the spec the
factor is inferred from the number of decimal digits after the point.  An
input with integer mantissa `m` and `d` decimal digits denotes `m * 10 ^ (-d)`
and carries factor `10 ^ d`. -/
structure ZKNumber where
  mantissa : Int
  decimals : ℕ
deriving Repr, DecidableEq

/-- The inferred factor of a `ZKNumber`. -/
def ZKNumber.factor (n : ZKNumber) : Int := 10 ^ n.decimals

/-- `MAX_FACTOR` of the `ZKCoordinate` source. -/
def MAX_FACTOR : Int := 10 ^ 7

/-- The `ZKCoordinate` constructor: after the (modelled) `ZKNumber`
normalization it performs exactly one check — it throws when the inferred
factor exceeds `MAX_FACTOR` — and never inspects the coordinate value
itself. -/
def ZKCoordinate (value : ZKNumber) : Except String ZKNumber :=
  if value.factor > MAX_FACTOR then
    Except.error "Invalid factor. The maximum factor is 7."
  else Except.ok value

/-- C10: the `ZKCoordinate` constructor throws exactly when the inferred
factor exceeds `10 ^ 7`; the magnitude of the coordinate value is never checked,
so every integer input — including the out-of-range 500 — is accepted at this
layer. -/
theorem ZKCoordinate_factor_check_only :
    (∀ v : ZKNumber,
      (∃ e, ZKCoordinate v = Except.error e) ↔ MAX_FACTOR < v.factor)
    ∧ (∀ m : Int, ZKCoordinate ⟨m, 0⟩ = Except.ok ⟨m, 0⟩)
    ∧ ZKCoordinate ⟨500, 0⟩ = Except.ok ⟨500, 0⟩ := by
  refine ⟨?_, ?_, rfl⟩
  · intro v
    unfold ZKCoordinate
    split_ifs with h
    · exact ⟨fun _ => h, fun _ => ⟨_, rfl⟩⟩
    · exact ⟨fun ⟨e, he⟩ => absurd he (by simp), fun hc => absurd hc h⟩
  · intro m
    unfold ZKCoordinate
    rw [if_neg]
    simp [ZKNumber.factor, MAX_FACTOR]

/-- Witness instantiating `ZKCoordinate_factor_check_only`: an input with
eight decimal digits (factor `10 ^ 8`) is rejected, and the value 500 with no
decimals is accepted. -/
theorem ZKCoordinate_factor_check_only_witness :
    (∃ e, ZKCoordinate ⟨1, 8⟩ = Except.error e)
    ∧ ZKCoordinate ⟨500, 0⟩ = Except.ok ⟨500, 0⟩ :=
  ⟨(ZKCoordinate_factor_check_only.1 ⟨1, 8⟩).2 (by decide),
    ZKCoordinate_factor_check_only.2.2⟩
